import Mathlib

/-!
Shallow embedding of the `plc-data-collection` data collector
(`src/data-collector/collector.py` and `src/data-collector/database.py`).

Time is modelled as `Nat` instants passed explicitly where the source calls
`time.time()` / `datetime.utcnow()`.  Register values are natural numbers and
scaled sensor values are rationals (the source divides a raw integer register
value by a scale divisor).  External effects (Modbus register reads, database
writes, connection attempts) are supplied by oracles, and calls made to the
storage sink are recorded in an explicit log so that theorems can talk about
what storage received.
-/

set_option autoImplicit false

namespace PLCCollector

/-- A sensor reading as built in `PLCConnection.read_sensors`:
`{"sensor_id": ..., "value": raw / scale, "timestamp": ..., "quality": "good", "unit": ...}`. -/
structure Reading where
  sensor_id : String
  value : ℚ
  timestamp : Nat
  quality : String
  unit : String
  deriving DecidableEq, Repr

/-- One entry of `PLCConnection.sensor_map`: a monitored channel with its
register address, scale divisor and display unit. -/
structure ChannelSpec where
  name : String
  address : Nat
  scale : ℚ
  unit : String
  deriving DecidableEq, Repr

/-- The fixed channel table from `PLCConnection.__init__` (`self.sensor_map`). -/
def sensor_map : List ChannelSpec :=
  [⟨"temperature", 0, 100, "°C"⟩,
   ⟨"pressure", 1, 100, "bar"⟩,
   ⟨"flow_rate", 2, 100, "L/min"⟩,
   ⟨"vibration", 3, 100, "mm/s"⟩,
   ⟨"motor_speed", 4, 100, "RPM"⟩]

/-- Outcome of one `client.read_holding_registers` call for a channel:
a successful raw register value, a Modbus-level error (`result.isError()`),
or an unexpected exception raised by the call. -/
inductive RegResult where
  | ok (raw : Nat)
  | err
  | fault
  deriving DecidableEq, Repr

/-- State of a `PLCConnection`: `client` is `none` when no client object has
been created, `some true` for a live (unclosed) client, `some false` for a
closed one; `connected` is the link's connectivity flag (`None` at
construction is modelled as `false`, Python treats both as falsy). -/
structure PLCState where
  client : Option Bool
  connected : Bool
  deriving DecidableEq, Repr

/-- `PLCConnection.__init__`: no client yet, `connected = None`. -/
def PLCState.init : PLCState := { client := none, connected := false }

/-- `PLCConnection.connect`: closes any prior client, creates a fresh one and
stores the boolean outcome of `client.connect()` in `connected`. -/
def PLCState.connect (_ : PLCState) (outcome : Bool) : PLCState :=
  { client := some true, connected := outcome }

/-- `PLCConnection.disconnect`: if a client object exists, close it and set
`connected = False`; with no client the method does nothing. -/
def PLCState.disconnect (s : PLCState) : PLCState :=
  match s.client with
  | none => s
  | some _ => { client := some false, connected := false }

/-- The `for sensor, config in self.sensor_map.items()` loop of
`read_sensors`: walks the channel list, skipping channels whose read reports
a Modbus error, building a reading (shared timestamp `ts`, value
`raw / scale`, quality `"good"`) for each successful read, and stopping at
the first channel whose read raises; the boolean records whether a fault
occurred. -/
def readChannels (resp : Nat → RegResult) (ts : Nat) :
    List ChannelSpec → List Reading × Bool
  | [] => ([], false)
  | c :: rest =>
    match resp c.address with
    | .fault => ([], true)
    | .err => readChannels resp ts rest
    | .ok raw =>
      let r := readChannels resp ts rest
      (⟨c.name, (raw : ℚ) / c.scale, ts, "good", c.unit⟩ :: r.1, r.2)

/-- `PLCConnection.read_sensors`: returns `[]` untouched when not connected;
otherwise reads every channel at the single capture timestamp `ts`, and on an
unexpected fault keeps the readings collected so far and clears `connected`. -/
def PLCState.read_sensors (s : PLCState) (resp : Nat → RegResult) (ts : Nat) :
    List Reading × PLCState :=
  if s.connected then
    let r := readChannels resp ts sensor_map
    (r.1, if r.2 then { s with connected := false } else s)
  else
    ([], s)

/-- States of a `PLCConnection` reachable through its public operations. -/
inductive PLCReach : PLCState → Prop where
  | init : PLCReach PLCState.init
  | connect {s : PLCState} (outcome : Bool) :
      PLCReach s → PLCReach (s.connect outcome)
  | read {s : PLCState} (resp : Nat → RegResult) (ts : Nat) :
      PLCReach s → PLCReach (s.read_sensors resp ts).2
  | disconnect {s : PLCState} :
      PLCReach s → PLCReach s.disconnect

/-- State of a `DataBuffer`. -/
structure BufState where
  buffer : List Reading
  flush_interval : Nat
  max_size : Nat
  last_flush : Nat
  deriving DecidableEq, Repr

/-- `DataBuffer.add_readings`: empty input returns without touching the
buffer (Python returns `None`, falsy, modelled as `false`); otherwise the
readings are appended and the call reports whether the post-append length
reached `max_size`. -/
def BufState.add_readings (b : BufState) (rs : List Reading) :
    BufState × Bool :=
  if rs.isEmpty then
    (b, false)
  else
    let b' := { b with buffer := b.buffer ++ rs }
    (b', decide (b.max_size ≤ b'.buffer.length))

/-- `DataBuffer.should_flush`: `time.time() - last_flush >= flush_interval`. -/
def BufState.should_flush (b : BufState) (now : Nat) : Bool :=
  decide (b.flush_interval ≤ now - b.last_flush)

/-- `DataBuffer.get_and_clear`: snapshot the whole sequence, clear it, reset
`last_flush` to now, return the snapshot. -/
def BufState.get_and_clear (b : BufState) (now : Nat) :
    List Reading × BufState :=
  (b.buffer, { b with buffer := [], last_flush := now })

/-- A sequence of `add_readings` calls, oldest batch first (used to speak
about insertion order across interleaved batches). -/
def BufState.addAll (b : BufState) : List (List Reading) → BufState
  | [] => b
  | rs :: rest => ((b.add_readings rs).1.addAll rest)

/-- The operating statistics dictionary `self.stats` of
`IndustrialDataCollector` (`start_time` is omitted: no claim mentions it). -/
structure Stats where
  readings_collected : Nat
  readings_stored : Nat
  connection_errors : Nat
  database_errors : Nat
  deriving DecidableEq, Repr

/-- Outcome of one `self.db.bulk_insert_readings(...)` call as observed by
the orchestrator: returned `True`, returned `False`, or raised. -/
inductive WriteOutcome where
  | success
  | failure
  | fault
  deriving DecidableEq, Repr

/-- State of an `IndustrialDatabaseManager`: `connection` is `none` when no
handle exists, `some true` for an open handle, `some false` for a closed
one; `connected` is the manager's flag; `schemaReady` models whether the
schema-creation transaction of `initialize_database` has committed. -/
structure DBState where
  connection : Option Bool
  connected : Bool
  schemaReady : Bool
  deriving DecidableEq, Repr

/-- `IndustrialDatabaseManager.disconnect`: closes the handle and clears
`connected` when a handle exists, otherwise does nothing. -/
def DBState.disconnect (d : DBState) : DBState :=
  match d.connection with
  | none => d
  | some _ => { d with connection := some false, connected := false }

/-- `IndustrialDatabaseManager.connect` viewed through its returned boolean
(`outcome`): on success the handle is live and `connected` set, on overall
failure `connected` is cleared.  The retry/backoff schedule inside this call
is modelled separately by `dbConnect`. -/
def DBState.connectResult (d : DBState) (outcome : Bool) : Bool × DBState :=
  if outcome then (true, { d with connection := some true, connected := true })
  else (false, { d with connected := false })

/-- `IndustrialDatabaseManager.initialize_database`: returns `False` without
touching anything when not connected; otherwise attempts the schema DDL,
whose success is the oracle `ok`, records the outcome and returns it. -/
def DBState.init_database (d : DBState) (ok : Bool) : Bool × DBState :=
  if d.connected then (ok, { d with schemaReady := ok }) else (false, d)

/-- Full orchestrator state (`IndustrialDataCollector`), with an explicit
log of every batch handed to `bulk_insert_readings` so that theorems can
talk about what storage received. -/
structure CollectorState where
  plc : PLCState
  buf : BufState
  db : DBState
  stats : Stats
  running : Bool
  storageLog : List (List Reading)
  deriving DecidableEq, Repr

/-- `IndustrialDataCollector.flush_buffer_to_database`: drain the buffer;
if the drained batch is empty return without contacting storage; otherwise
hand the batch to `bulk_insert_readings` (recorded in `storageLog`), and on
reported success add the batch length to `readings_stored`, while a reported
failure or a raised fault adds 1 to `database_errors`. -/
def flush_buffer_to_database (s : CollectorState) (now : Nat)
    (w : WriteOutcome) : CollectorState :=
  let gc := s.buf.get_and_clear now
  let readings := gc.1
  if readings.isEmpty then { s with buf := gc.2 }
  else
    let s' := { s with buf := gc.2, storageLog := s.storageLog ++ [readings] }
    match w with
    | .success =>
      { s' with stats :=
          { s'.stats with readings_stored := s'.stats.readings_stored + readings.length } }
    | .failure =>
      { s' with stats :=
          { s'.stats with database_errors := s'.stats.database_errors + 1 } }
    | .fault =>
      { s' with stats :=
          { s'.stats with database_errors := s'.stats.database_errors + 1 } }

/-- Environment of one iteration of `data_collection_loop`: the iteration's
clock value, the outcome a `plc.connect()` attempt would have, the register
responses, the outcome a `bulk_insert_readings` call would have, and an
optional unexpected fault point inside the loop body (`some k` means the
body raises just before sub-step `k`: 0 = connect block, 1 = sensor read,
2 = buffering/flush, 3 = the end-of-iteration sleep). -/
structure IterEnv where
  now : Nat
  connectOutcome : Bool
  resp : Nat → RegResult
  writeOutcome : WriteOutcome
  fault : Option Nat

/-- The poll-buffer-flush part of the loop body (`readings = ...` onwards):
read all sensors, and when the poll returned readings, append them to the
buffer, add the batch length to `readings_collected`, and flush when the
append requested it or the time trigger fires.  An `.error` carries the
state at the point the unexpected fault was raised. -/
def pollAndFlush (s : CollectorState) (env : IterEnv) :
    Except CollectorState CollectorState :=
  if env.fault = some 1 then .error s else
  let rd := s.plc.read_sensors env.resp env.now
  let s1 := { s with plc := rd.2 }
  if env.fault = some 2 then .error s1 else
  let s2 :=
    if rd.1.isEmpty then s1
    else
      let ab := s1.buf.add_readings rd.1
      let sb := { s1 with
        buf := ab.1
        stats := { s1.stats with
          readings_collected := s1.stats.readings_collected + rd.1.length } }
      if ab.2 || ab.1.should_flush env.now then
        flush_buffer_to_database sb env.now env.writeOutcome
      else sb
  if env.fault = some 3 then .error s2 else .ok s2

/-- The body of one `while self.running.is_set()` iteration, without the
surrounding `try/except`: when the link is down, attempt a reconnect and on
failure add 1 to `connection_errors` and restart the iteration (`continue`
after the 10-unit sleep); otherwise poll and maybe flush. -/
def loopBody (s : CollectorState) (env : IterEnv) :
    Except CollectorState CollectorState :=
  if env.fault = some 0 then .error s else
  if s.plc.connected then pollAndFlush s env
  else
    let plc' := s.plc.connect env.connectOutcome
    if plc'.connected then pollAndFlush { s with plc := plc' } env
    else
      .ok { s with
        plc := plc'
        stats := { s.stats with
          connection_errors := s.stats.connection_errors + 1 } }

/-- Result of one loop iteration: the loop either continues with a new state
or has observed a cleared running flag and exited. -/
inductive StepResult where
  | continued (s : CollectorState)
  | exited (s : CollectorState)
  deriving DecidableEq, Repr

/-- One full iteration of `data_collection_loop`, including the running-flag
check and the loop-level `except` clause, which converts any unexpected
fault into `connection_errors += 1` (followed by the 5-unit recovery sleep)
and continues looping. -/
def loopStep (s : CollectorState) (env : IterEnv) : StepResult :=
  if s.running then
    match loopBody s env with
    | .ok s' => .continued s'
    | .error sf =>
      .continued { sf with stats :=
        { sf.stats with connection_errors := sf.stats.connection_errors + 1 } }
  else .exited s

/-- `IndustrialDataCollector.shutdown`: clear the running flag, then flush
whatever remains buffered. -/
def shutdown (s : CollectorState) (now : Nat) (w : WriteOutcome) :
    CollectorState :=
  flush_buffer_to_database { s with running := false } now w

/-- `IndustrialDataCollector.cleanup` (run unconditionally by the `finally`
block of `run`): disconnect the PLC link and the database manager. -/
def cleanup (s : CollectorState) : CollectorState :=
  { s with plc := s.plc.disconnect, db := s.db.disconnect }

/-- The attempt loop of `IndustrialDatabaseManager.connect`, recursing on
the remaining attempts: `outcome n` tells whether attempt `n` succeeds;
returns the overall boolean result, the number of attempts made, and the
list of sleeps performed between consecutive failed attempts (`retry_delay`
starts at `delay` and doubles after each sleep; no sleep follows the final
failed attempt). -/
def connectGo (outcome : Nat → Bool) (attempt delay : Nat) :
    Nat → Bool × Nat × List Nat
  | 0 => (false, 0, [])
  | remaining + 1 =>
    if outcome attempt then (true, 1, [])
    else if remaining = 0 then (false, 1, [])
    else
      let r := connectGo outcome (attempt + 1) (delay * 2) remaining
      (r.1, r.2.1 + 1, delay :: r.2.2)

/-- `IndustrialDatabaseManager.connect`: up to `max_retries = 5` attempts,
`retry_delay` starting at 2 and doubling between consecutive failures. -/
def dbConnect (outcome : Nat → Bool) : Bool × Nat × List Nat :=
  connectGo outcome 0 2 5

/-- Outcomes of the three external calls made by `connect_tosystems`. -/
structure StartupEnv where
  dbOutcome : Bool
  initOutcome : Bool
  plcOutcome : Bool
  deriving DecidableEq, Repr

/-- `IndustrialDataCollector.connect_tosystems`: abort on a failed database
connect; then call `initialize_database` with its boolean result discarded
(exactly as in the source); then abort on a failed PLC connect; otherwise
report success. -/
def connect_tosystems (s : CollectorState) (env : StartupEnv) :
    Bool × CollectorState :=
  let (dbOk, db') := s.db.connectResult env.dbOutcome
  let s1 := { s with db := db' }
  if !dbOk then (false, s1)
  else
    let initResult := s1.db.init_database env.initOutcome
    let s2 := { s1 with db := initResult.2 }
    let plc' := s2.plc.connect env.plcOutcome
    let s3 := { s2 with plc := plc' }
    if !plc'.connected then (false, s3) else (true, s3)

/-! ### Concrete fixtures used by witness theorems -/

/-- A sample temperature reading (raw register value 50, scale 100). -/
def r0 : Reading := ⟨"temperature", 1 / 2, 0, "good", "°C"⟩

/-- A sample pressure reading. -/
def r1 : Reading := ⟨"pressure", 3 / 100, 0, "good", "bar"⟩

/-- A sample flow reading. -/
def r2 : Reading := ⟨"flow_rate", 7, 0, "good", "L/min"⟩

/-- A small buffer with `max_size = 3`, as in the spec's dual-trigger
example. -/
def bufEx : BufState :=
  { buffer := [], flush_interval := 30, max_size := 3, last_flush := 0 }

/-! ### Claim theorems -/

/-- Claim C6: `add_readings` on empty input is a no-op that does not
request a flush; on non-empty input it appends the readings and returns
`true` exactly when the post-append buffer length reaches `max_size`. -/
theorem add_readings_spec (b : BufState) (rs : List Reading) :
    (rs = [] → b.add_readings rs = (b, false)) ∧
    (rs ≠ [] →
      (b.add_readings rs).1 = { b with buffer := b.buffer ++ rs } ∧
      ((b.add_readings rs).2 = true ↔
        b.max_size ≤ b.buffer.length + rs.length)) := by
  constructor
  · intro h
    subst h
    rfl
  · intro h
    have hne : rs.isEmpty = false := by
      simpa using h
    refine ⟨?_, ?_⟩
    · simp [BufState.add_readings, hne]
    · simp [BufState.add_readings, hne]

/-- Witness for C6, realising the spec's example: with `max_size = 3`,
appending 3 readings requests a forced flush and appending 2 does not,
regardless of elapsed time. -/
theorem add_readings_spec_witness :
    ((bufEx.add_readings [r0, r1, r2]).1 =
        { bufEx with buffer := [] ++ [r0, r1, r2] } ∧
      ((bufEx.add_readings [r0, r1, r2]).2 = true ↔ 3 ≤ 0 + 3)) ∧
    ((bufEx.add_readings [r0, r1]).1 =
        { bufEx with buffer := [] ++ [r0, r1] } ∧
      ((bufEx.add_readings [r0, r1]).2 = true ↔ 3 ≤ 0 + 2)) :=
  ⟨(add_readings_spec bufEx [r0, r1, r2]).2 (by simp),
   (add_readings_spec bufEx [r0, r1]).2 (by simp)⟩

/-- `addAll` only grows the buffer, by the concatenation of its batches in
order; the thresholds and `last_flush` are untouched. -/
theorem addAll_eq (b0 : BufState) (batches : List (List Reading)) :
    b0.addAll batches = { b0 with buffer := b0.buffer ++ batches.flatten } := by
  induction batches generalizing b0 with
  | nil => simp [BufState.addAll]
  | cons rs rest ih =>
    by_cases h : rs.isEmpty
    · have hrs : rs = [] := by simpa using h
      subst hrs
      simp [BufState.addAll, BufState.add_readings, ih]
    · have hne : rs.isEmpty = false := by simpa using h
      simp [BufState.addAll, BufState.add_readings, hne, ih]

/-- Claim C7: after any sequence of appends, `get_and_clear` returns the
whole buffered sequence in append order, leaves the buffer empty and resets
`last_flush` to the current time; draining an already-empty buffer returns
an empty sequence and still resets `last_flush`. -/
theorem get_and_clear_spec (b0 : BufState) (batches : List (List Reading))
    (now : Nat) :
    ((b0.addAll batches).get_and_clear now).1 = b0.buffer ++ batches.flatten ∧
    ((b0.addAll batches).get_and_clear now).2.buffer = [] ∧
    ((b0.addAll batches).get_and_clear now).2.last_flush = now ∧
    (b0.buffer = [] →
      (b0.get_and_clear now).1 = [] ∧
      (b0.get_and_clear now).2.last_flush = now) := by
  refine ⟨?_, ?_, ?_, ?_⟩
  · rw [addAll_eq]
    rfl
  · rw [addAll_eq]
    rfl
  · rw [addAll_eq]
    rfl
  · intro h
    exact ⟨h, rfl⟩

/-- Witness for C7: interleaved batches come back in append order, and a
drain of the empty buffer still resets `last_flush`. -/
theorem get_and_clear_spec_witness :
    ((bufEx.addAll [[r0, r1], [], [r2]]).get_and_clear 42).1 =
        [] ++ [[r0, r1], [], [r2]].flatten ∧
    ((bufEx.addAll [[r0, r1], [], [r2]]).get_and_clear 42).2.buffer = [] ∧
    ((bufEx.addAll [[r0, r1], [], [r2]]).get_and_clear 42).2.last_flush = 42 ∧
    ((bufEx.get_and_clear 42).1 = [] ∧
      (bufEx.get_and_clear 42).2.last_flush = 42) := by
  have h := get_and_clear_spec bufEx [[r0, r1], [], [r2]] 42
  exact ⟨h.1, h.2.1, h.2.2.1, h.2.2.2 rfl⟩

/-- Claim C3: a flush with an empty drained batch never contacts storage
and changes no counter; a successful bulk write adds exactly the batch
length to `readings_stored`; a reported failure or a raised fault adds
exactly 1 to `database_errors`, leaves `readings_stored` unchanged, and the
drained batch is neither re-inserted into the buffer (which ends empty) nor
submitted more than the one time recorded in the log. -/
theorem flush_protocol_spec (s : CollectorState) (now : Nat)
    (w : WriteOutcome) :
    (s.buf.buffer = [] →
      (flush_buffer_to_database s now w).storageLog = s.storageLog ∧
      (flush_buffer_to_database s now w).stats = s.stats) ∧
    (s.buf.buffer ≠ [] →
      (flush_buffer_to_database s now w).storageLog
          = s.storageLog ++ [s.buf.buffer] ∧
      (flush_buffer_to_database s now w).buf.buffer = [] ∧
      (w = .success →
        (flush_buffer_to_database s now w).stats.readings_stored
            = s.stats.readings_stored + s.buf.buffer.length ∧
        (flush_buffer_to_database s now w).stats.database_errors
            = s.stats.database_errors) ∧
      (w ≠ .success →
        (flush_buffer_to_database s now w).stats.database_errors
            = s.stats.database_errors + 1 ∧
        (flush_buffer_to_database s now w).stats.readings_stored
            = s.stats.readings_stored)) := by
  constructor
  · intro h
    simp [flush_buffer_to_database, BufState.get_and_clear, h]
  · intro h
    have hne : s.buf.buffer.isEmpty = false := by simpa using h
    cases w with
    | success =>
      refine ⟨?_, ?_, ?_, ?_⟩ <;>
        simp [flush_buffer_to_database, BufState.get_and_clear, hne]
    | failure =>
      refine ⟨?_, ?_, ?_, ?_⟩ <;>
        simp [flush_buffer_to_database, BufState.get_and_clear, hne]
    | fault =>
      refine ⟨?_, ?_, ?_, ?_⟩ <;>
        simp [flush_buffer_to_database, BufState.get_and_clear, hne]

/-- A collector state with one buffered reading, used by witnesses. -/
def colEx : CollectorState :=
  { plc := { client := some true, connected := true }
    buf := { buffer := [r0], flush_interval := 30, max_size := 1000, last_flush := 0 }
    db := { connection := some true, connected := true, schemaReady := true }
    stats := { readings_collected := 1, readings_stored := 0,
               connection_errors := 0, database_errors := 0 }
    running := true
    storageLog := [] }

/-- Witness for C3: flushing one buffered reading into a failing bulk write
loses the batch, bumps `database_errors` once and leaves `readings_stored`
alone. -/
theorem flush_protocol_spec_witness :
    (flush_buffer_to_database colEx 40 .failure).storageLog
        = colEx.storageLog ++ [colEx.buf.buffer] ∧
    (flush_buffer_to_database colEx 40 .failure).buf.buffer = [] ∧
    ((WriteOutcome.failure = .success) →
      (flush_buffer_to_database colEx 40 .failure).stats.readings_stored
          = colEx.stats.readings_stored + colEx.buf.buffer.length ∧
      (flush_buffer_to_database colEx 40 .failure).stats.database_errors
          = colEx.stats.database_errors) ∧
    ((WriteOutcome.failure ≠ .success) →
      (flush_buffer_to_database colEx 40 .failure).stats.database_errors
          = colEx.stats.database_errors + 1 ∧
      (flush_buffer_to_database colEx 40 .failure).stats.readings_stored
          = colEx.stats.readings_stored) :=
  (flush_protocol_spec colEx 40 .failure).2 (by simp [colEx])

/-- Every reachable `PLCConnection` state with no client object has a falsy
`connected` flag (the constructor leaves `connected = None`, and `connect`
always installs a client before setting the flag). -/
theorem plc_reach_client_none :
    ∀ {s : PLCState}, PLCReach s → s.client = none → s.connected = false
  | _, .init, _ => rfl
  | _, @PLCReach.connect _ outcome _, hc => by
    simp [PLCState.connect] at hc
  | _, @PLCReach.read s0 resp ts hprev, hc => by
    cases hcon : s0.connected with
    | false =>
      have hres : (s0.read_sensors resp ts).2 = s0 := by
        simp [PLCState.read_sensors, hcon]
      rw [hres] at hc ⊢
      exact hcon
    | true =>
      have hcl : (s0.read_sensors resp ts).2.client = s0.client := by
        cases hfault : (readChannels resp ts sensor_map).2 <;>
          simp [PLCState.read_sensors, hcon, hfault]
      rw [hcl] at hc
      have h2 := plc_reach_client_none hprev hc
      exact absurd hcon (by simp [h2])
  | _, @PLCReach.disconnect s0 hprev, hc => by
    cases hcl : s0.client with
    | none =>
      have hres : s0.disconnect = s0 := by simp [PLCState.disconnect, hcl]
      rw [hres] at hc ⊢
      exact plc_reach_client_none hprev hc
    | some b =>
      have hres : s0.disconnect = { client := some false, connected := false } := by
        simp [PLCState.disconnect, hcl]
      rw [hres] at hc
      simp at hc

/-- Claim C8: from every reachable state, `disconnect` leaves `connected`
false and closes the handle when one exists; and a second `disconnect`
changes nothing. -/
theorem disconnect_idempotent (s : PLCState) (h : PLCReach s) :
    s.disconnect.connected = false ∧
    s.disconnect.client = s.client.map (fun _ => false) ∧
    s.disconnect.disconnect = s.disconnect := by
  cases hcl : s.client with
  | none =>
    have hres : s.disconnect = s := by simp [PLCState.disconnect, hcl]
    refine ⟨?_, ?_, ?_⟩
    · rw [hres]
      exact plc_reach_client_none h hcl
    · rw [hres, hcl]
      rfl
    · rw [hres, hres]
  | some b =>
    have hres : s.disconnect = { client := some false, connected := false } := by
      simp [PLCState.disconnect, hcl]
    refine ⟨?_, ?_, ?_⟩
    · rw [hres]
    · rw [hres]
      rfl
    · rw [hres]
      rfl

/-- Witness for C8: disconnecting a freshly-connected link closes the
client, clears `connected`, and disconnecting again is a no-op. -/
theorem disconnect_idempotent_witness :
    (PLCState.init.connect true).disconnect.connected = false ∧
    (PLCState.init.connect true).disconnect.client
        = (PLCState.init.connect true).client.map (fun _ => false) ∧
    (PLCState.init.connect true).disconnect.disconnect
        = (PLCState.init.connect true).disconnect :=
  disconnect_idempotent _ (PLCReach.connect true PLCReach.init)

/-- Whether a register read raised an unexpected exception. -/
def RegResult.isFault : RegResult → Bool
  | .fault => true
  | _ => false

/-- The reading a successful register read yields for channel `c` at capture
timestamp `ts` (`none` when the read errors or raises). -/
def okReading (resp : Nat → RegResult) (ts : Nat) (c : ChannelSpec) :
    Option Reading :=
  match resp c.address with
  | .ok raw => some ⟨c.name, (raw : ℚ) / c.scale, ts, "good", c.unit⟩
  | _ => none

/-- `r = .fault` and `r.isFault = true` coincide. -/
theorem isFault_iff (r : RegResult) : r.isFault = true ↔ r = .fault := by
  cases r <;> simp [RegResult.isFault]

/-- Characterisation of the channel-scan loop: the readings are exactly the
successful reads among the channels before the first raising one, and the
fault flag is set iff some channel's read raises. -/
theorem readChannels_eq (resp : Nat → RegResult) (ts : Nat)
    (cs : List ChannelSpec) :
    readChannels resp ts cs =
      ((cs.takeWhile fun c => !(resp c.address).isFault).filterMap
          (okReading resp ts),
        cs.any fun c => (resp c.address).isFault) := by
  induction cs with
  | nil => rfl
  | cons c rest ih =>
    cases hresp : resp c.address with
    | fault =>
      simp [readChannels, hresp, okReading, RegResult.isFault,
        List.takeWhile_cons]
    | err =>
      simp [readChannels, hresp, okReading, RegResult.isFault,
        List.takeWhile_cons, ih]
    | ok raw =>
      simp [readChannels, hresp, okReading, RegResult.isFault,
        List.takeWhile_cons, ih]

/-- Inversion for `okReading`. -/
theorem okReading_some {resp : Nat → RegResult} {ts : Nat}
    {c : ChannelSpec} {r : Reading} (h : okReading resp ts c = some r) :
    ∃ raw, resp c.address = .ok raw ∧
      r = ⟨c.name, (raw : ℚ) / c.scale, ts, "good", c.unit⟩ := by
  unfold okReading at h
  cases hresp : resp c.address with
  | ok raw =>
    rw [hresp] at h
    exact ⟨raw, rfl, (Option.some_inj.mp h).symm⟩
  | err =>
    rw [hresp] at h
    cases h
  | fault =>
    rw [hresp] at h
    cases h

/-- Channels of the fixed `sensor_map` are determined by their name. -/
theorem sensor_map_name_inj :
    ∀ c ∈ sensor_map, ∀ c' ∈ sensor_map, c.name = c'.name → c = c' := by
  decide

/-- Claim C4: when not connected, `read_sensors` returns `[]` and changes
nothing; when connected, all returned readings share the single capture
timestamp and quality `"good"`, each comes from a channel whose read
succeeded and carries that channel's name, scaled value and unit, channels
whose read reports a Modbus error are absent from the result, a run with no
raising channel leaves the link state unchanged, and a raising channel
clears `connected` and returns exactly the successful readings collected
before the first raising channel. -/
theorem read_sensors_spec (s : PLCState) (resp : Nat → RegResult) (ts : Nat) :
    (s.connected = false → s.read_sensors resp ts = ([], s)) ∧
    (s.connected = true →
      (∀ r ∈ (s.read_sensors resp ts).1, r.timestamp = ts ∧ r.quality = "good") ∧
      (∀ r ∈ (s.read_sensors resp ts).1, ∃ c ∈ sensor_map,
        r.sensor_id = c.name ∧ ∃ raw, resp c.address = .ok raw ∧
          r.value = (raw : ℚ) / c.scale ∧ r.unit = c.unit) ∧
      (∀ c ∈ sensor_map, resp c.address = .err →
        ∀ r ∈ (s.read_sensors resp ts).1, r.sensor_id ≠ c.name) ∧
      ((∀ c ∈ sensor_map, resp c.address ≠ .fault) →
        (s.read_sensors resp ts).2 = s) ∧
      ((∃ c ∈ sensor_map, resp c.address = .fault) →
        (s.read_sensors resp ts).2 = { s with connected := false } ∧
        (s.read_sensors resp ts).1 =
          (sensor_map.takeWhile fun c => !(resp c.address).isFault).filterMap
            (okReading resp ts))) := by
  have hrc := readChannels_eq resp ts sensor_map
  constructor
  · intro hcon
    simp [PLCState.read_sensors, hcon]
  · intro hcon
    have hfst : (s.read_sensors resp ts).1 =
        (sensor_map.takeWhile fun c => !(resp c.address).isFault).filterMap
          (okReading resp ts) := by
      simp [PLCState.read_sensors, hcon, hrc]
    have hmem : ∀ r ∈ (s.read_sensors resp ts).1, ∃ c ∈ sensor_map,
        okReading resp ts c = some r := by
      intro r hr
      rw [hfst] at hr
      rcases List.mem_filterMap.mp hr with ⟨c, hc, hok⟩
      exact ⟨c, (List.takeWhile_prefix _).sublist.subset hc, hok⟩
    refine ⟨?_, ?_, ?_, ?_, ?_⟩
    · intro r hr
      rcases hmem r hr with ⟨c, _, hok⟩
      rcases okReading_some hok with ⟨raw, _, hre⟩
      subst hre
      exact ⟨rfl, rfl⟩
    · intro r hr
      rcases hmem r hr with ⟨c, hc, hok⟩
      rcases okReading_some hok with ⟨raw, hresp, hre⟩
      subst hre
      exact ⟨c, hc, rfl, raw, hresp, rfl, rfl⟩
    · intro c hc hcerr r hr hname
      rcases hmem r hr with ⟨c', hc', hok⟩
      rcases okReading_some hok with ⟨raw, hresp, hre⟩
      subst hre
      have : c' = c := sensor_map_name_inj c' hc' c hc hname
      rw [this] at hresp
      rw [hcerr] at hresp
      cases hresp
    · intro hnof
      have hany : (sensor_map.any fun c => (resp c.address).isFault) = false := by
        rw [List.any_eq_false]
        intro c hc
        simp only [isFault_iff]
        exact hnof c hc
      simp [PLCState.read_sensors, hcon, hrc, hany]
    · intro hex
      have hany : (sensor_map.any fun c => (resp c.address).isFault) = true := by
        rw [List.any_eq_true]
        rcases hex with ⟨c, hc, hcf⟩
        exact ⟨c, hc, (isFault_iff _).mpr hcf⟩
      constructor
      · simp [PLCState.read_sensors, hcon, hrc, hany]
      · exact hfst

/-- A live, connected PLC link, used by witnesses. -/
def plcConn : PLCState := { client := some true, connected := true }

/-- Register responses where channel address 2 raises and the rest succeed. -/
def respFaultEx : Nat → RegResult :=
  fun a => if a = 2 then .fault else .ok (10 * a + 5)

/-- Witness for C4: a raising channel mid-scan clears `connected` and the
call returns exactly the successful readings before the fault. -/
theorem read_sensors_spec_witness :
    (plcConn.read_sensors respFaultEx 7).2 = { plcConn with connected := false } ∧
    (plcConn.read_sensors respFaultEx 7).1 =
      (sensor_map.takeWhile fun c => !(respFaultEx c.address).isFault).filterMap
        (okReading respFaultEx 7) :=
  ((read_sensors_spec plcConn respFaultEx 7).2 rfl).2.2.2.2
    ⟨⟨"flow_rate", 2, 100, "L/min"⟩, by simp [sensor_map], rfl⟩

/-- Claim C9: the storage connect makes at most 5 attempts, succeeds iff
one of the 5 attempt outcomes succeeds (stopping at the first success, all
earlier attempts having failed), reports `false` once all attempts have
failed, and the sleeps between consecutive failed attempts start at 2 and
double each time. -/
theorem db_connect_retry_spec (outcome : Nat → Bool) :
    (dbConnect outcome).2.1 ≤ 5 ∧
    (dbConnect outcome).1 =
      (outcome 0 || outcome 1 || outcome 2 || outcome 3 || outcome 4) ∧
    ((dbConnect outcome).1 = true →
      outcome ((dbConnect outcome).2.1 - 1) = true ∧
      ∀ j < (dbConnect outcome).2.1 - 1, outcome j = false) ∧
    ((dbConnect outcome).1 = false → (dbConnect outcome).2.1 = 5) ∧
    (dbConnect outcome).2.2 =
      (List.range ((dbConnect outcome).2.1 - 1)).map (fun j => 2 * 2 ^ j) := by
  by_cases h0 : outcome 0 <;> by_cases h1 : outcome 1 <;>
    by_cases h2 : outcome 2 <;> by_cases h3 : outcome 3 <;>
    by_cases h4 : outcome 4 <;>
    refine ⟨?_, ?_, ?_, ?_, ?_⟩ <;>
    simp [dbConnect, connectGo, h0, h1, h2, h3, h4, List.range_succ] <;>
    (intro j hj; interval_cases j <;> simp_all)

/-- Attempt outcomes where only the third attempt (index 2) succeeds. -/
def outEx : Nat → Bool := fun n => decide (n = 2)

/-- Witness for C9: with the first two attempts failing and the third
succeeding, 3 ≤ 5 attempts are made, the last one succeeds, and the two
sleeps are 2 then 4. -/
theorem db_connect_retry_spec_witness :
    (dbConnect outEx).2.1 ≤ 5 ∧
    outEx ((dbConnect outEx).2.1 - 1) = true ∧
    (dbConnect outEx).2.2 =
      (List.range ((dbConnect outEx).2.1 - 1)).map (fun j => 2 * 2 ^ j) :=
  ⟨(db_connect_retry_spec outEx).1,
   ((db_connect_retry_spec outEx).2.2.1 (by decide)).1,
   (db_connect_retry_spec outEx).2.2.2.2⟩

/-- Claim C10: `connect_tosystems` succeeds exactly when the database
connect and the PLC connect succeed; the boolean returned by
`initialize_database` is discarded, so startup reports success (and the
loop starts) even when schema initialization failed. -/
theorem connect_tosystems_ignores_init (s : CollectorState) (env : StartupEnv) :
    (connect_tosystems s env).1 = (env.dbOutcome && env.plcOutcome) ∧
    (env.dbOutcome = true → env.plcOutcome = true →
      (connect_tosystems s env).1 = true ∧
      (connect_tosystems s env).2.db.schemaReady = env.initOutcome) := by
  cases env with
  | mk dbo ino plco =>
    cases dbo <;> cases plco <;>
      simp [connect_tosystems, DBState.connectResult, DBState.init_database,
        PLCState.connect]

/-- Witness for C10: with both connects succeeding but schema
initialization failing, startup still reports success, with an
uninitialized schema. -/
theorem connect_tosystems_ignores_init_witness :
    (connect_tosystems colEx ⟨true, false, true⟩).1 = (true && true) ∧
    ((connect_tosystems colEx ⟨true, false, true⟩).1 = true ∧
      (connect_tosystems colEx ⟨true, false, true⟩).2.db.schemaReady = false) :=
  ⟨(connect_tosystems_ignores_init colEx ⟨true, false, true⟩).1,
   (connect_tosystems_ignores_init colEx ⟨true, false, true⟩).2 rfl rfl⟩

/-- The state carried by either verdict of the loop body. -/
def exState : Except CollectorState CollectorState → CollectorState
  | .ok s => s
  | .error s => s

/-- A flush never touches the running flag. -/
theorem flush_running (s : CollectorState) (now : Nat) (w : WriteOutcome) :
    (flush_buffer_to_database s now w).running = s.running := by
  cases w <;> by_cases h : s.buf.buffer.isEmpty <;>
    simp [flush_buffer_to_database, BufState.get_and_clear, h]

/-- The poll-buffer-flush part of the body never touches the running flag,
wherever it faults. -/
theorem pollAndFlush_running (s : CollectorState) (env : IterEnv) :
    (exState (pollAndFlush s env)).running = s.running := by
  unfold pollAndFlush
  simp only []
  repeat' split
  all_goals simp [exState, flush_running]

/-- The whole loop body never touches the running flag, wherever it
faults. -/
theorem loopBody_running (s : CollectorState) (env : IterEnv) :
    (exState (loopBody s env)).running = s.running := by
  unfold loopBody
  split
  · rfl
  · split
    · exact pollAndFlush_running s env
    · dsimp only
      split
      · exact pollAndFlush_running _ env
      · rfl

/-- Claim C5: with the running flag cleared the loop exits untouched;
with it set, every iteration continues (no fault propagates out of the
loop), the continuation still has the flag set, and whenever the body
raised an unexpected fault the continuation is the fault-time state with
`connection_errors` incremented by exactly 1. -/
theorem loop_fault_containment (s : CollectorState) (env : IterEnv) :
    (s.running = false → loopStep s env = .exited s) ∧
    (s.running = true →
      ∃ s', loopStep s env = .continued s' ∧ s'.running = true ∧
        ∀ sf, loopBody s env = .error sf →
          s' = { sf with stats := { sf.stats with
            connection_errors := sf.stats.connection_errors + 1 } }) := by
  constructor
  · intro h
    simp [loopStep, h]
  · intro h
    cases hb : loopBody s env with
    | ok s2 =>
      refine ⟨s2, ?_, ?_, ?_⟩
      · simp [loopStep, h, hb]
      · have hr := loopBody_running s env
        rw [hb] at hr
        simp only [exState] at hr
        rw [hr, h]
      · intro sf hsf
        simp at hsf
    | error sf0 =>
      refine ⟨{ sf0 with stats := { sf0.stats with
        connection_errors := sf0.stats.connection_errors + 1 } }, ?_, ?_, ?_⟩
      · simp [loopStep, h, hb]
      · have hr := loopBody_running s env
        rw [hb] at hr
        simp only [exState] at hr
        show sf0.running = true
        rw [hr, h]
      · intro sf hsf
        injection hsf with hh
        subst hh
        rfl

/-- An iteration environment that faults right at the top of the loop
body. -/
def envFault : IterEnv :=
  { now := 100, connectOutcome := true, resp := fun _ => .err,
    writeOutcome := .success, fault := some 0 }

/-- Witness for C5: a faulting iteration continues with only
`connection_errors` bumped from 0 to 1. -/
theorem loop_fault_containment_witness :
    loopStep colEx envFault = .continued
      { colEx with stats := { colEx.stats with connection_errors := 1 } } := by
  obtain ⟨s', h1, _, h3⟩ := (loop_fault_containment colEx envFault).2 rfl
  have hs := h3 colEx rfl
  rw [hs] at h1
  exact h1

/-- Flushing a non-empty buffer empties it, stamps `last_flush`, and hands
storage exactly one batch: the full old buffer contents. -/
theorem flush_nonempty_buffer (s : CollectorState) (now : Nat)
    (w : WriteOutcome) (h : s.buf.buffer ≠ []) :
    (flush_buffer_to_database s now w).buf.buffer = [] ∧
    (flush_buffer_to_database s now w).buf.last_flush = now ∧
    (flush_buffer_to_database s now w).storageLog
        = s.storageLog ++ [s.buf.buffer] := by
  have hne : s.buf.buffer.isEmpty = false := by simpa using h
  cases w <;> simp [flush_buffer_to_database, BufState.get_and_clear, hne]

/-- Claim C2: the shutdown path clears the running flag, flushes the
whole buffered batch to storage in exactly one additional submission,
empties the buffer (so readings acquired before shutdown are not dropped:
on storage success `readings_stored` grows by the batch length), and the
subsequent cleanup unconditionally closes both the device handle and the
storage handle. -/
theorem shutdown_durability (s : CollectorState) (now : Nat)
    (w : WriteOutcome) (h : s.buf.buffer ≠ []) :
    (shutdown s now w).running = false ∧
    (cleanup (shutdown s now w)).running = false ∧
    (cleanup (shutdown s now w)).buf.buffer = [] ∧
    (cleanup (shutdown s now w)).storageLog
        = s.storageLog ++ [s.buf.buffer] ∧
    (w = .success →
      (cleanup (shutdown s now w)).stats.readings_stored
          = s.stats.readings_stored + s.buf.buffer.length) ∧
    (cleanup (shutdown s now w)).plc.client
        = s.plc.client.map (fun _ => false) ∧
    (cleanup (shutdown s now w)).db.connection
        = s.db.connection.map (fun _ => false) := by
  have hne : s.buf.buffer.isEmpty = false := by simpa using h
  refine ⟨?_, ?_, ?_, ?_, ?_, ?_, ?_⟩
  · cases w <;>
      simp [shutdown, flush_buffer_to_database, BufState.get_and_clear, hne]
  · cases w <;>
      simp [cleanup, shutdown, flush_buffer_to_database,
        BufState.get_and_clear, hne]
  · cases w <;>
      simp [cleanup, shutdown, flush_buffer_to_database,
        BufState.get_and_clear, hne]
  · cases w <;>
      simp [cleanup, shutdown, flush_buffer_to_database,
        BufState.get_and_clear, hne]
  · intro hw
    subst hw
    simp [cleanup, shutdown, flush_buffer_to_database,
      BufState.get_and_clear, hne]
  · cases hcl : s.plc.client <;> cases w <;>
      simp [cleanup, shutdown, flush_buffer_to_database,
        BufState.get_and_clear, hne, PLCState.disconnect, hcl]
  · cases hdb : s.db.connection <;> cases w <;>
      simp [cleanup, shutdown, flush_buffer_to_database,
        BufState.get_and_clear, hne, DBState.disconnect, hdb]

/-- Witness for C2: shutting down `colEx` (one buffered reading) with a
succeeding storage sink stores that reading, empties the buffer, and
closes both handles. -/
theorem shutdown_durability_witness :
    (shutdown colEx 50 .success).running = false ∧
    (cleanup (shutdown colEx 50 .success)).running = false ∧
    (cleanup (shutdown colEx 50 .success)).buf.buffer = [] ∧
    (cleanup (shutdown colEx 50 .success)).storageLog
        = colEx.storageLog ++ [colEx.buf.buffer] ∧
    (WriteOutcome.success = .success →
      (cleanup (shutdown colEx 50 .success)).stats.readings_stored
          = colEx.stats.readings_stored + colEx.buf.buffer.length) ∧
    (cleanup (shutdown colEx 50 .success)).plc.client
        = colEx.plc.client.map (fun _ => false) ∧
    (cleanup (shutdown colEx 50 .success)).db.connection
        = colEx.db.connection.map (fun _ => false) :=
  shutdown_durability colEx 50 .success (by simp [colEx])

/-- An iteration environment whose clock makes the time trigger fire and
whose register reads all report Modbus errors (so the poll returns no
readings). -/
def envErr : IterEnv :=
  { now := 100, connectOutcome := true, resp := fun _ => .err,
    writeOutcome := .success, fault := none }

/-- Counterexample to claim C1 as stated: in this iteration the link is
connected, a poll is performed returning no readings, the buffer is
non-empty and its time-based trigger fires, yet the iteration performs no
flush — the state (buffer contents, `last_flush`, storage log) is left
completely unchanged. -/
theorem time_trigger_without_readings_counterexample :
    colEx.running = true ∧
    colEx.plc.connected = true ∧
    (colEx.plc.read_sensors envErr.resp envErr.now).1 = [] ∧
    colEx.buf.should_flush envErr.now = true ∧
    colEx.buf.buffer ≠ [] ∧
    loopStep colEx envErr = .continued colEx := by
  refine ⟨rfl, rfl, rfl, by decide, by decide, rfl⟩

/-- Appending readings does not move the time-trigger clock. -/
theorem add_readings_keeps_should_flush (b : BufState) (rs : List Reading)
    (now : Nat) :
    ((b.add_readings rs).1).should_flush now = b.should_flush now := by
  by_cases h : rs.isEmpty <;>
    simp [BufState.add_readings, BufState.should_flush, h]

/-- Claim C1 (amended): in every fault-free iteration in which the device
link is connected at poll time, a flush is performed iff the poll returned
at least one reading AND (the append signalled a forced flush or the
buffer's time-based trigger fires); when the poll returns no readings, or
neither trigger fires, nothing is flushed (storage log, `last_flush` and
buffered data — beyond the appended readings — are unchanged). -/
theorem flush_condition_amended (s : CollectorState) (env : IterEnv)
    (hrun : s.running = true) (hcon : s.plc.connected = true)
    (hf : env.fault = none) :
    ∃ s', loopStep s env = .continued s' ∧
      (((s.plc.read_sensors env.resp env.now).1 ≠ [] ∧
        ((s.buf.add_readings (s.plc.read_sensors env.resp env.now).1).2 = true ∨
          s.buf.should_flush env.now = true)) →
        s'.buf.buffer = [] ∧
        s'.buf.last_flush = env.now ∧
        s'.storageLog = s.storageLog ++
          [s.buf.buffer ++ (s.plc.read_sensors env.resp env.now).1]) ∧
      (((s.plc.read_sensors env.resp env.now).1 = [] ∨
        ((s.buf.add_readings (s.plc.read_sensors env.resp env.now).1).2 = false ∧
          s.buf.should_flush env.now = false)) →
        s'.storageLog = s.storageLog ∧
        s'.buf.last_flush = s.buf.last_flush ∧
        s'.buf.buffer = s.buf.buffer ++
          (s.plc.read_sensors env.resp env.now).1) := by
  have hf0 : env.fault ≠ some 0 := by simp [hf]
  have hf1 : env.fault ≠ some 1 := by simp [hf]
  have hf2 : env.fault ≠ some 2 := by simp [hf]
  have hf3 : env.fault ≠ some 3 := by simp [hf]
  by_cases hempty : (s.plc.read_sensors env.resp env.now).1 = []
  · refine ⟨{ s with plc := (s.plc.read_sensors env.resp env.now).2 }, ?_, ?_, ?_⟩
    · simp [loopStep, loopBody, pollAndFlush, hrun, hcon, hf0, hf1, hf2, hf3,
        hempty]
    · rintro ⟨hne2, -⟩
      exact absurd hempty hne2
    · intro _
      exact ⟨rfl, rfl, by simp [hempty]⟩
  · have hne : (s.plc.read_sensors env.resp env.now).1.isEmpty = false := by
      simpa using hempty
    by_cases htrig :
        ((s.buf.add_readings (s.plc.read_sensors env.resp env.now).1).2 = true ∨
          s.buf.should_flush env.now = true)
    · have htrigb :
          ((s.buf.add_readings (s.plc.read_sensors env.resp env.now).1).2 ||
            ((s.buf.add_readings (s.plc.read_sensors env.resp env.now).1).1).should_flush
              env.now) = true := by
        rcases htrig with h | h
        · simp [h]
        · simp [add_readings_keeps_should_flush, h]
      have hbuf :
          ((s.buf.add_readings (s.plc.read_sensors env.resp env.now).1).1).buffer
            = s.buf.buffer ++ (s.plc.read_sensors env.resp env.now).1 := by
        simp [BufState.add_readings, hne]
      have hstep : loopStep s env = .continued
          (flush_buffer_to_database
            { s with
              plc := (s.plc.read_sensors env.resp env.now).2
              buf := (s.buf.add_readings (s.plc.read_sensors env.resp env.now).1).1
              stats := { s.stats with readings_collected :=
                s.stats.readings_collected +
                  (s.plc.read_sensors env.resp env.now).1.length } }
            env.now env.writeOutcome) := by
        simp [loopStep, loopBody, pollAndFlush, hrun, hcon, hf0, hf1, hf2, hf3,
          hne, htrigb]
      have hnb :
          ({ s with
              plc := (s.plc.read_sensors env.resp env.now).2
              buf := (s.buf.add_readings (s.plc.read_sensors env.resp env.now).1).1
              stats := { s.stats with readings_collected :=
                s.stats.readings_collected +
                  (s.plc.read_sensors env.resp env.now).1.length } }
            : CollectorState).buf.buffer ≠ [] := by
        simp only [hbuf]
        simp [hempty]
      have hfl := flush_nonempty_buffer _ env.now env.writeOutcome hnb
      refine ⟨_, hstep, ?_, ?_⟩
      · intro _
        refine ⟨hfl.1, hfl.2.1, ?_⟩
        rw [hfl.2.2]
        simp [hbuf]
      · rintro (hc | ⟨hff, hsf⟩)
        · exact absurd hc hempty
        · rcases htrig with ht | ht
          · rw [ht] at hff
            cases hff
          · rw [ht] at hsf
            cases hsf
    · have hffb :
          ((s.buf.add_readings (s.plc.read_sensors env.resp env.now).1).2 ||
            ((s.buf.add_readings (s.plc.read_sensors env.resp env.now).1).1).should_flush
              env.now) = false := by
        push_neg at htrig
        rcases htrig with ⟨h1, h2⟩
        simp [add_readings_keeps_should_flush, Bool.eq_false_iff.mpr h1,
          Bool.eq_false_iff.mpr h2]
      have hstep : loopStep s env = .continued
          { s with
            plc := (s.plc.read_sensors env.resp env.now).2
            buf := (s.buf.add_readings (s.plc.read_sensors env.resp env.now).1).1
            stats := { s.stats with readings_collected :=
              s.stats.readings_collected +
                (s.plc.read_sensors env.resp env.now).1.length } } := by
        simp [loopStep, loopBody, pollAndFlush, hrun, hcon, hf0, hf1, hf2, hf3,
          hne, hffb]
      refine ⟨_, hstep, ?_, ?_⟩
      · rintro ⟨-, ht2⟩
        exact absurd ht2 htrig
      · intro _
        refine ⟨rfl, ?_, ?_⟩
        · simp [BufState.add_readings, hne]
        · simp [BufState.add_readings, hne]

/-- An iteration environment with all register reads succeeding and the
time trigger firing. -/
def envOk : IterEnv :=
  { now := 100, connectOutcome := true, resp := fun a => .ok (10 * a + 5),
    writeOutcome := .success, fault := none }

/-- Witness for C1 (amended): a fault-free connected iteration whose poll
succeeds and whose time trigger fires flushes the whole buffer (old
contents plus the new readings) to storage. -/
theorem flush_condition_amended_witness :
    ∃ s', loopStep colEx envOk = .continued s' ∧
      s'.buf.buffer = [] ∧ s'.buf.last_flush = 100 ∧
      s'.storageLog = colEx.storageLog ++
        [colEx.buf.buffer ++ (colEx.plc.read_sensors envOk.resp envOk.now).1] := by
  obtain ⟨s', h1, h2, -⟩ := flush_condition_amended colEx envOk rfl rfl rfl
  have h3 := h2 ⟨by decide, Or.inr (by decide)⟩
  exact ⟨s', h1, h3.1, h3.2.1, h3.2.2⟩

end PLCCollector
